import Mathlib

/-!
Verification development for the judge-llm repository: a multi-provider
LLM inference client (OpenRouter and Together AI) with fallback, plus a
majority-vote judging engine with free-text decision extraction.

The Python sources are shallowly embedded here:
* pure text processing (`JudgeService._extract_decision`) is embedded
  character-by-character over `List Char`, with the five `re` patterns of
  the source hand-translated into explicit scanners that follow Python
  `re.findall` semantics (leftmost scan, non-overlapping, resume after
  each match);
* the retry loops of `OpenRouterClient.call` / `.stream` and
  `TogetherAIClient.call` / `.stream` are embedded as functions over an
  environment `Nat → Attempt` assigning to each attempt number the
  outcome the network would produce for it (HTTP status plus parsed
  payload, a timeout, or a request exception raised at the request);
* Python floats are embedded as `ℚ` (all clamping arithmetic is exact),
  ints as `ℤ` or `Nat`; wall-clock `elapsed` values and the `raw`
  payload echoes are not modelled;
* Python dicts with optional keys become structures with `Option`
  fields, a missing key being `none`.
Text predicates (`str.strip`, `str.upper`, regex `\s`, `\w`) are
embedded for ASCII text, which is the alphabet the judge protocol uses.
-/

/-! ### Python string primitives (ASCII embedding) -/

/-- Python whitespace for `str.strip`, `str.split()` and regex `\s`. -/
def pyIsSpace (c : Char) : Bool :=
  c == ' ' || c == '\t' || c == '\n' || c == '\r' || c == '\x0b' || c == '\x0c'

/-- Regex word character `\w` (ASCII). -/
def isWordChar (c : Char) : Bool := c.isAlphanum || c == '_'

/-- Python `str.strip()` on a character list. -/
def pyStripL (l : List Char) : List Char :=
  ((l.dropWhile pyIsSpace).reverse.dropWhile pyIsSpace).reverse

/-- Python `str.strip()` on a `String`. -/
def pyStripS (s : String) : String := ⟨pyStripL s.data⟩

/-- Python `text.split('\n')`: auxiliary accumulator form. -/
def splitNlAux : List Char → List Char → List (List Char)
  | [], acc => [acc.reverse]
  | c :: cs, acc => if c == '\n' then acc.reverse :: splitNlAux cs [] else splitNlAux cs (c :: acc)

/-- Python `text.split('\n')`. -/
def splitOnNl (l : List Char) : List (List Char) := splitNlAux l []

/-- Python `str.split()` (split on whitespace runs, dropping empties): aux. -/
def splitWAux : List Char → List Char → List (List Char)
  | [], acc => if acc.isEmpty then [] else [acc.reverse]
  | c :: cs, acc =>
    if pyIsSpace c then
      (if acc.isEmpty then splitWAux cs [] else acc.reverse :: splitWAux cs [])
    else splitWAux cs (c :: acc)

/-- Python `str.split()` (no separator argument). -/
def pySplitW (l : List Char) : List (List Char) := splitWAux l []

/-- Does `hay` start with `needle`? -/
def startsWithL : List Char → List Char → Bool
  | _, [] => true
  | [], _ :: _ => false
  | c :: cs, d :: ds => c == d && startsWithL cs ds

/-- Python substring test `needle in hay`. -/
def containsL : List Char → List Char → Bool
  | [], needle => needle.isEmpty
  | c :: t, needle => startsWithL (c :: t) needle || containsL t needle

/-- Match a literal at the front; return the remainder on success. -/
def dropLit : List Char → List Char → Option (List Char)
  | [], hay => some hay
  | _ :: _, [] => none
  | n :: ns, c :: cs => if c == n then dropLit ns cs else none

/-- Case-insensitive helpers used by the Together AI error classifier. -/
def lowerContains (m key : String) : Bool := containsL (m.data.map Char.toLower) key.data

/-- Raw (case-sensitive) substring test on `String`s. -/
def strContains (m key : String) : Bool := containsL m.data key.data

/-! ### Decision extractor (`JudgeService._extract_decision`)

The five regex patterns of strategy 3 are, in source order:
1. `\b(TIE)\b`
2. `(?:final|answer|decision|conclusion|choice).*?\b([AB])\b`
3. `\b([AB])\s*(?:is|wins|better)`
4. `(?:candidate\s+)?([AB])(?:\s+(?:is|wins))`
5. `([AB])(?:\s*$|\s*[.!])`
Each is embedded as a `tryPn` single-match function (applied at a given
position, knowing the previous character for `\b`) plus the generic
`re.findall` scanner `scanFA`. -/

/-- Is the next character (if any) a non-word character (regex `\b` on the right)? -/
def headNonWord : List Char → Bool
  | [] => true
  | c :: _ => !isWordChar c

/-- Is the previous character (if any) a non-word character (regex `\b` on the left)? -/
def optNonWord : Option Char → Bool
  | none => true
  | some c => !isWordChar c

/-- One match attempt of pattern `\b(TIE)\b` at the current position. -/
def tryTIE (prev : Option Char) (s : List Char) : Option (List Char × Option Char × List Char) :=
  match dropLit ['T', 'I', 'E'] s with
  | some rest =>
    if optNonWord prev && headNonWord rest then some (['T', 'I', 'E'], some 'E', rest) else none
  | none => none

/-- Lazy `.*?\b([AB])\b`: scan right for the first boundary-delimited A/B,
`.` not crossing a newline. `prev` is the last character already consumed. -/
def lazyAB : Char → List Char → Option (List Char × Option Char × List Char)
  | _, [] => none
  | prev, c :: rest =>
    if (c == 'A' || c == 'B') && !isWordChar prev && headNonWord rest then
      some ([c], some c, rest)
    else if c == '\n' then none
    else lazyAB c rest

/-- Try a list of literal alternatives at the current position; on success
return the last character of the matched literal and the remainder. -/
def tryLits : List (List Char) → List Char → Option (Char × List Char)
  | [], _ => none
  | k :: ks, s =>
    match dropLit k s with
    | some rest => some (k.getLastD ' ', rest)
    | none => tryLits ks s

/-- Keyword alternatives of pattern 2 (lowercase in the source, and the
scanned text has been upper-cased first — embedded as written). -/
def p2Keywords : List (List Char) :=
  ["final".data, "answer".data, "decision".data, "conclusion".data, "choice".data]

/-- One match attempt of `(?:final|answer|decision|conclusion|choice).*?\b([AB])\b`. -/
def tryP2 (_prev : Option Char) (s : List Char) : Option (List Char × Option Char × List Char) :=
  match tryLits p2Keywords s with
  | some (lc, rest) => lazyAB lc rest
  | none => none

/-- One match attempt of `\b([AB])\s*(?:is|wins|better)`. -/
def tryP3 (prev : Option Char) (s : List Char) : Option (List Char × Option Char × List Char) :=
  match s with
  | [] => none
  | c :: rest =>
    if (c == 'A' || c == 'B') && optNonWord prev then
      match tryLits ["is".data, "wins".data, "better".data] (rest.dropWhile pyIsSpace) with
      | some (lc, rest2) => some ([c], some lc, rest2)
      | none => none
    else none

/-- Shared suffix `(?:\s+(?:is|wins))` of pattern 4, after the `[AB]`. -/
def p4After (c : Char) (rest : List Char) : Option (List Char × Option Char × List Char) :=
  if (rest.takeWhile pyIsSpace).isEmpty then none
  else
    match tryLits ["is".data, "wins".data] (rest.dropWhile pyIsSpace) with
    | some (lc, rest2) => some ([c], some lc, rest2)
    | none => none

/-- One match attempt of `(?:candidate\s+)?([AB])(?:\s+(?:is|wins))`. -/
def tryP4 (_prev : Option Char) (s : List Char) : Option (List Char × Option Char × List Char) :=
  (match dropLit "candidate".data s with
   | some r1 =>
     if (r1.takeWhile pyIsSpace).isEmpty then none
     else
       match r1.dropWhile pyIsSpace with
       | c :: r2 => if c == 'A' || c == 'B' then p4After c r2 else none
       | [] => none
   | none => none).orElse
    (fun _ =>
      match s with
      | c :: rest => if c == 'A' || c == 'B' then p4After c rest else none
      | [] => none)

/-- One match attempt of `([AB])(?:\s*$|\s*[.!])` (no `MULTILINE`, so `$`
matches only at the very end, equivalently: all remaining characters are
whitespace). -/
def tryP5 (_prev : Option Char) (s : List Char) : Option (List Char × Option Char × List Char) :=
  match s with
  | [] => none
  | c :: rest =>
    if c == 'A' || c == 'B' then
      if rest.all pyIsSpace then some ([c], some c, [])
      else
        match rest.dropWhile pyIsSpace with
        | d :: r2 => if d == '.' || d == '!' then some ([c], some d, r2) else none
        | [] => none
    else none

/-- `re.findall` driver: try a match at each position, left to right,
resuming after the end of each match. The fuel is the text length (every
step consumes at least one character). -/
def scanFA (try1 : Option Char → List Char → Option (List Char × Option Char × List Char)) :
    Nat → Option Char → List Char → List (List Char)
  | 0, _, _ => []
  | _ + 1, _, [] => []
  | fuel + 1, prev, c :: rest =>
    match try1 prev (c :: rest) with
    | some (g, lc, rest2) => g :: scanFA try1 fuel lc rest2
    | none => scanFA try1 fuel (some c) rest

/-- `re.findall(pattern, s)` for one embedded pattern. -/
def findallWith
    (try1 : Option Char → List Char → Option (List Char × Option Char × List Char))
    (s : List Char) : List (List Char) :=
  scanFA try1 s.length none s

/-- `for pattern in patterns: matches = findall(...); if matches: return matches[-1]`. -/
def firstPatternLast : List (List (List Char)) → Option (List Char)
  | [] => none
  | r :: rs =>
    match r.getLast? with
    | some g => some g
    | none => firstPatternLast rs

/-- `re.findall(r'\bA\b', cleaned)` length: count standalone occurrences. -/
def countStandalone (target : Char) : Option Char → List Char → Nat
  | _, [] => 0
  | prev, c :: rest =>
    (if c == target && optNonWord prev && headNonWord rest then 1 else 0) +
      countStandalone target (some c) rest

/-- `cleaned = response_text.strip().upper()`. -/
def cleanedL (text : List Char) : List Char := (pyStripL text).map Char.toUpper

/-- `lines = [line.strip() for line in cleaned.split('\n') if line.strip()]`. -/
def linesOfL (cleaned : List Char) : List (List Char) :=
  ((splitOnNl cleaned).map pyStripL).filter (fun l => !l.isEmpty)

/-- Is a word exactly one of the three verdict tokens? -/
def isTok (w : List Char) : Bool := w == ['A'] || w == ['B'] || w == ['T', 'I', 'E']

/-- Strategy 1 second half: scan the last 10 words from the end for a token. -/
def lastTenScan (cleaned : List Char) : Option (List Char) :=
  let ws := pySplitW cleaned
  ((ws.drop (ws.length - 10)).reverse.find? isTok)

/-- Strategy 1: last non-empty line, then last ten words. -/
def step1 (cleaned : List Char) : Option (List Char) :=
  match (linesOfL cleaned).getLast? with
  | none => none
  | some last => if isTok last then some last else lastTenScan cleaned

/-- Strategy 3: the ordered regex cascade. -/
def step3 (cleaned : List Char) : Option (List Char) :=
  firstPatternLast
    [findallWith tryTIE cleaned, findallWith tryP2 cleaned, findallWith tryP3 cleaned,
      findallWith tryP4 cleaned, findallWith tryP5 cleaned]

/-- Strategy 4 keyword list (`tie_keywords` in the source). -/
def tieKeywords : List (List Char) :=
  ["EQUAL".data, "SAME".data, "TIED".data, "DRAW".data, "EQUIVALENT".data, "BOTH ARE".data]

/-- `JudgeService._extract_decision`, embedded on `List Char`. -/
def extractD (text : List Char) : Option String :=
  if text.isEmpty then none
  else
    let cleaned := cleanedL text
    match step1 cleaned with
    | some d => some ⟨d⟩
    | none =>
      if containsL cleaned ['T', 'I', 'E'] then some "TIE"
      else
        match step3 cleaned with
        | some d => some ⟨d⟩
        | none =>
          if tieKeywords.any (fun k => containsL cleaned k) then some "TIE"
          else
            let ac := countStandalone 'A' none cleaned
            let bc := countStandalone 'B' none cleaned
            if bc + 1 < ac then some "A"
            else if ac + 1 < bc then some "B"
            else none

/-- `JudgeService._extract_decision` on `String` input. -/
def extract_decision (s : String) : Option String := extractD s.data

/-- The line pipeline of strategy 1, as seen from a `String` input. -/
def linesOf (s : String) : List (List Char) := linesOfL (cleanedL s.data)

/-! ### Judging engine (`JudgeService.judge_majority`)

`judge_majority` runs `repeats` sequential `judge_once` calls; each
attempt either yields `{ok: True, decision: d}` (with `d` produced by
`_extract_decision`, hence one of A/B/TIE) or counts as an error
(`ok` false, or an exception, both appending the vote "ERR").  The
attempts are embedded as a list of outcomes, one per repeat, in attempt
order; the per-attempt error strings and `raw` debugging payloads are
not modelled. -/

/-- Outcome of one `judge_once` attempt as observed by `judge_majority`. -/
inductive JudgeOutcome where
  | ok (decision : String)
  | fail (reason : String)
deriving DecidableEq, Repr

/-- Did the attempt succeed (`jr.get("ok")` truthy)? -/
def isOkOutcome : JudgeOutcome → Bool
  | .ok _ => true
  | .fail _ => false

/-- The vote appended for one attempt. -/
def voteOf : JudgeOutcome → String
  | .ok d => d
  | .fail _ => "ERR"

/-- `votes` list, in attempt order. -/
def votesOf (outs : List JudgeOutcome) : List String := outs.map voteOf

/-- `counts["A"]` after the tally loop. -/
def countA (outs : List JudgeOutcome) : Nat := (votesOf outs).count "A"

/-- `counts["B"]`. -/
def countB (outs : List JudgeOutcome) : Nat := (votesOf outs).count "B"

/-- `counts["TIE"]`. -/
def countT (outs : List JudgeOutcome) : Nat := (votesOf outs).count "TIE"

/-- `counts["ERR"]`. -/
def countE (outs : List JudgeOutcome) : Nat := (votesOf outs).count "ERR"

/-- `valid_votes = counts["A"] + counts["B"] + counts["TIE"]`. -/
def validVotes (outs : List JudgeOutcome) : Nat := countA outs + countB outs + countT outs

/-- `max_count = valid_counts[winner]`: the maximum over the A/B/TIE tallies. -/
def maxCount (outs : List JudgeOutcome) : Nat := max (countA outs) (max (countB outs) (countT outs))

/-- `len(tied_winners)`: how many of the three labels attain the maximum. -/
def numAtMax (outs : List JudgeOutcome) : Nat :=
  (if countA outs = maxCount outs then 1 else 0) +
    (if countB outs = maxCount outs then 1 else 0) +
    (if countT outs = maxCount outs then 1 else 0)

/-- `winner = max(valid_counts, key=...)`: Python `max` over the dict
`{A, B, TIE}` returns the first key (in insertion order A, B, TIE)
attaining the maximal value. -/
def pyWinner (outs : List JudgeOutcome) : String :=
  if countA outs = maxCount outs then "A"
  else if countB outs = maxCount outs then "B"
  else "TIE"

/-- The dict returned by `judge_majority`; absent keys are `none`.  The
all-failed branch returns `{ok: False, reason: {...}}` whose nested
`message` field is embedded as the `reason` string (the nested `votes`,
`errors` and `raw` debugging payloads are not modelled). -/
structure MajorityResult where
  ok : Bool
  decision : Option String := none
  reason : Option String := none
  counts : Option (Nat × Nat × Nat × Nat) := none
  votes : Option (List String) := none
  valid_votes : Option Nat := none
  total_attempts : Option Nat := none
deriving DecidableEq, Repr

/-- `JudgeService.judge_majority`, over the attempt outcomes (one per
repeat, so `repeats = outs.length`). -/
def judge_majority (outs : List JudgeOutcome) : MajorityResult :=
  if validVotes outs = 0 then
    { ok := false, reason := some "All judgment attempts failed" }
  else
    { ok := true
      decision := some (if 1 < numAtMax outs then "TIE" else pyWinner outs)
      counts := some (countA outs, countB outs, countT outs, countE outs)
      votes := some (votesOf outs)
      valid_votes := some (validVotes outs)
      total_attempts := some outs.length }

/-! ### Provider clients

Failure `status` values in the Python result dicts are HTTP codes
(ints) or the strings `"json_error"`, `"no_choices"`, `"timeout"`,
`"request_exception"`, `"parse_error"`, `"exception"`, `"unknown"`;
successful results carry no `status` key. -/

/-- The `status` field of a failure result. -/
inductive StatusTag where
  | code (n : Nat)
  | jsonError
  | noChoices
  | timeout
  | requestException
  | parseError
  | exception
  | unknown
deriving DecidableEq, Repr

/-- A call result / fallback envelope: a Python dict with optional keys
(`none` = key absent).  `usage`, `elapsed` and `raw` are not modelled. -/
structure Envelope where
  ok : Bool
  status : Option StatusTag := none
  text : String := ""
  fallback_used : Option Bool := none
  fallback_model : Option String := none
  original_error : Option String := none
  fallback_attempted : Option Bool := none
  fallback_error : Option String := none
deriving DecidableEq, Repr

/-- Truncation `s[:n]` of a Python string. -/
def pyTake (n : Nat) (s : String) : String := ⟨s.data.take n⟩

/-! #### `OpenRouterClient._create_request_body` -/

/-- `max(0.0, min(1.0, float(temperature)))`. -/
def orClampTemperature (t : ℚ) : ℚ := max 0 (min 1 t)

/-- `max(0.1, min(1.0, float(top_p)))`. -/
def orClampTopP (p : ℚ) : ℚ := max (1 / 10) (min 1 p)

/-- `max(1, min(2048, int(max_tokens)))`. -/
def orClampMaxTokens (m : ℤ) : ℤ := max 1 (min 2048 m)

/-- The JSON request body built by `OpenRouterClient._create_request_body`
(the single-user-turn message list is represented by the prompt text). -/
structure ORBody where
  model : String
  prompt : String
  temperature : ℚ
  top_p : ℚ
  max_tokens : ℤ
  stream : Bool
deriving DecidableEq, Repr

/-- `OpenRouterClient._create_request_body`. -/
def _create_request_body (model_id prompt_text : String) (max_tokens : ℤ)
    (temperature top_p : ℚ) (stream : Bool) : ORBody :=
  { model := model_id
    prompt := prompt_text
    temperature := orClampTemperature temperature
    top_p := orClampTopP top_p
    max_tokens := orClampMaxTokens max_tokens
    stream := stream }

/-- The keyword arguments `TogetherAIClient.call` / `.stream` pass to
`client.chat.completions.create`: `max_tokens=int(max_tokens)`,
`temperature=float(temperature)`, `top_p=float(top_p)` — no clamping. -/
structure TogBody where
  model : String
  prompt : String
  max_tokens : ℤ
  temperature : ℚ
  top_p : ℚ
deriving DecidableEq, Repr

/-- The request parameters forwarded by the Together AI client. -/
def togetherRequestArgs (model_id prompt_text : String) (max_tokens : ℤ)
    (temperature top_p : ℚ) : TogBody :=
  { model := model_id
    prompt := prompt_text
    max_tokens := max_tokens
    temperature := temperature
    top_p := top_p }

/-! #### `AppConfig` pydantic validators (`src/config/models.py`) -/

/-- `validate_temperature: max(0.0, min(v, 2.0))`. -/
def validate_temperature (v : ℚ) : ℚ := max 0 (min v 2)

/-- `validate_timeout: max(30, min(v, 600))`. -/
def validate_timeout (v : ℤ) : ℤ := max 30 (min v 600)

/-- `validate_max_tokens: max(64, min(v, 4096))`. -/
def validate_max_tokens (v : ℤ) : ℤ := max 64 (min v 4096)

/-- `validate_judge_repeats: max(1, min(v, 5))`. -/
def validate_judge_repeats (v : ℤ) : ℤ := max 1 (min v 5)

/-! #### `OpenRouterClient.call`

Each loop iteration performs one `requests.post`; the environment maps
the attempt number (1-based, as in `range(1, retries + 1)`) to what that
post would produce.  Backoff sleeps only affect timing and are not
modelled. -/

/-- The parsed shape of a 200 response body, as `call` inspects it:
`resp.json()` may fail, `choices` may be missing/empty, otherwise the
first choice has a message with `content` and optional `reasoning`. -/
inductive ORPayload where
  | jsonError
  | noChoices
  | message (content : String) (reasoning : Option String)
deriving DecidableEq, Repr

/-- Outcome of one `requests.post` in `OpenRouterClient.call`: a response
with its HTTP status, body text (for the non-retryable error message) and
parsed payload, or a raised `Timeout` / `RequestException`. -/
inductive ORCallAttempt where
  | resp (status : Nat) (bodyText : String) (payload : ORPayload)
  | timeout
  | netError (msg : String)
deriving DecidableEq, Repr

/-- The 200-response extraction of `OpenRouterClient.call` (content with
fallback to the `reasoning` field when content is empty). -/
def orParse (p : ORPayload) : Envelope :=
  match p with
  | .jsonError => { ok := false, status := some .jsonError, text := "Invalid JSON response" }
  | .noChoices => { ok := false, status := some .noChoices, text := "No response choices returned" }
  | .message c r => { ok := true, text := if c = "" then r.getD "" else c }

/-- The retry loop of `OpenRouterClient.call` over the remaining attempt
numbers (`range(1, retries + 1)` in the source). -/
def orCallLoop (tmo : Nat) (env : Nat → ORCallAttempt) (retries : Nat) :
    List Nat → Envelope
  | [] => { ok := false, status := some .unknown, text := "Exceeded retries" }
  | a :: rest =>
    match env a with
    | .resp s bodyText payload =>
      if s = 429 then
        if a = retries then
          { ok := false, status := some (.code 429), text := "Rate limited - please wait and retry" }
        else orCallLoop tmo env retries rest
      else if s = 502 ∨ s = 503 then
        if a = retries then
          { ok := false, status := some (.code s), text := "Server temporarily unavailable" }
        else orCallLoop tmo env retries rest
      else if s ≠ 200 then
        { ok := false, status := some (.code s), text := "API error: " ++ pyTake 200 bodyText }
      else orParse payload
    | .timeout =>
      if a = retries then
        { ok := false, status := some .timeout,
          text := "Request timed out after " ++ toString tmo ++ "s" }
      else orCallLoop tmo env retries rest
    | .netError m =>
      if a = retries then
        { ok := false, status := some .requestException, text := "Network error: " ++ pyTake 100 m }
      else orCallLoop tmo env retries rest

/-- `OpenRouterClient.call(model_id, prompt, ..., timeout, retries)`. -/
def orCall (tmo : Nat) (env : Nat → ORCallAttempt) (retries : Nat) : Envelope :=
  orCallLoop tmo env retries (List.range' 1 retries)

/-! #### `TogetherAIClient.call` -/

/-- Outcome of one Together SDK call: a response (with or without
choices) or a raised exception whose message drives the classifier. -/
inductive TogCallAttempt where
  | success (content : String)
  | noChoices
  | exn (msg : String)
deriving DecidableEq, Repr

/-- `"404" in error_msg or "not found" in error_msg.lower()`. -/
def togCond404 (m : String) : Bool := strContains m "404" || lowerContains m "not found"

/-- `"401" in error_msg or "unauthorized" in error_msg.lower()`. -/
def togCond401 (m : String) : Bool := strContains m "401" || lowerContains m "unauthorized"

/-- `"rate limit" in error_msg.lower() or "429" in error_msg`. -/
def togCond429 (m : String) : Bool := lowerContains m "rate limit" || strContains m "429"

/-- `any(k in error_msg.lower() for k in ["timeout","connection","network","503"])`. -/
def togRetriable (m : String) : Bool :=
  lowerContains m "timeout" || lowerContains m "connection" ||
    lowerContains m "network" || lowerContains m "503"

/-- The retry loop of `TogetherAIClient.call`. -/
def togCallLoop (model : String) (env : Nat → TogCallAttempt) (retries : Nat) :
    List Nat → Envelope
  | [] => { ok := false, status := some .unknown, text := "Exceeded retries" }
  | a :: rest =>
    match env a with
    | .success content => { ok := true, text := pyStripS content }
    | .noChoices => { ok := false, status := some .parseError, text := "No choices in response" }
    | .exn m =>
      if togCond404 m then
        { ok := false, status := some (.code 404),
          text := "Model \x27" ++ model ++ "\x27 not found. Please verify the model ID is correct." }
      else if togCond401 m then
        { ok := false, status := some (.code 401),
          text := "Authentication failed - check your Together AI API key" }
      else if togCond429 m then
        { ok := false, status := some (.code 429), text := "Rate limited" }
      else if a < retries ∧ togRetriable m then togCallLoop model env retries rest
      else { ok := false, status := some .exception, text := m }

/-- `TogetherAIClient.call(model_id, prompt, ..., retries)`. -/
def togCall (model : String) (env : Nat → TogCallAttempt) (retries : Nat) : Envelope :=
  togCallLoop model env retries (List.range' 1 retries)

/-! #### Streaming (`OpenRouterClient.stream`, `TogetherAIClient.stream`)

A chunk is one yielded dict.  The SSE framing of an OpenRouter 200
response is abstracted into a list of already-decoded events: a decoded
`data:` JSON with a `delta.content` text (empty when the field is
missing/empty, in which case nothing is yielded or accumulated), a
malformed line (skipped by the `except ... continue`), or `[DONE]`.
The environment fixes each attempt's outcome at the `requests.post`
(exceptions raised mid-iteration of an already-open 200 stream are not
modelled). -/

/-- One yielded stream chunk (dict); absent keys are defaults. -/
structure Chunk where
  ok : Bool
  final : Bool := false
  status : Option StatusTag := none
  text : String := ""
deriving DecidableEq, Repr

/-- One decoded SSE event of an OpenRouter 200 streaming response. -/
inductive SSEEvent where
  | delta (text : String)
  | malformed
  | done
deriving DecidableEq, Repr

/-- Outcome of one `requests.post(..., stream=True)` in `OpenRouterClient.stream`. -/
inductive ORStreamAttempt where
  | resp (status : Nat) (events : List SSEEvent)
  | timeout
  | netError (msg : String)
deriving DecidableEq, Repr

/-- The non-terminal chunks yielded while iterating a 200 response
(`yield {"ok": True, "text": text}` for each non-empty delta, stopping
at `[DONE]`). -/
def sseChunks : List SSEEvent → List Chunk
  | [] => []
  | .done :: _ => []
  | .malformed :: r => sseChunks r
  | .delta t :: r => if t = "" then sseChunks r else { ok := true, text := t } :: sseChunks r

/-- `accumulated_text` at the end of the same iteration. -/
def sseText : List SSEEvent → String
  | [] => ""
  | .done :: _ => ""
  | .malformed :: r => sseText r
  | .delta t :: r => if t = "" then sseText r else t ++ sseText r

/-- The retry loop of `OpenRouterClient.stream`: the chunks yielded by
the whole generator, starting from the given remaining attempt numbers. -/
def orStreamLoop (tmo : Nat) (env : Nat → ORStreamAttempt) (retries : Nat) :
    List Nat → List Chunk
  | [] => [{ ok := false, status := some .unknown, text := "Stream exceeded retries" }]
  | a :: rest =>
    match env a with
    | .resp s events =>
      if s = 429 then
        { ok := false, status := some (.code 429), text := "Rate limited - please wait" } ::
          (if a < retries then orStreamLoop tmo env retries rest else [])
      else if s ≠ 200 then
        [{ ok := false, status := some (.code s), text := "API error: " ++ toString s }]
      else
        sseChunks events ++ [{ ok := true, final := true, text := sseText events }]
    | .timeout =>
      { ok := false, status := some .timeout,
          text := "Stream timed out after " ++ toString tmo ++ "s" } ::
        (if a < retries then orStreamLoop tmo env retries rest else [])
    | .netError m =>
      { ok := false, status := some .requestException, text := "Stream error: " ++ pyTake 100 m } ::
        (if a < retries then orStreamLoop tmo env retries rest else [])

/-- `OpenRouterClient.stream(model_id, prompt, ..., timeout, retries)`. -/
def orStream (tmo : Nat) (env : Nat → ORStreamAttempt) (retries : Nat) : List Chunk :=
  orStreamLoop tmo env retries (List.range' 1 retries)

/-- Outcome of one Together SDK streaming call: the delta-content texts
of the chunks it produces (an empty string standing for a chunk whose
`delta.content` is missing/empty, which yields nothing), or a raised
exception. -/
inductive TogStreamAttempt where
  | ok (deltas : List String)
  | exn (msg : String)
deriving DecidableEq, Repr

/-- The retry loop of `TogetherAIClient.stream`.  Its terminal chunk
carries no `text` key; retriable exceptions retry without yielding. -/
def togStreamLoop (model : String) (env : Nat → TogStreamAttempt) (retries : Nat) :
    List Nat → List Chunk
  | [] => [{ ok := false, status := some .unknown, text := "Exceeded retries" }]
  | a :: rest =>
    match env a with
    | .ok deltas =>
      ((deltas.filter (fun d => d ≠ "")).map (fun d => { ok := true, text := d : Chunk })) ++
        [{ ok := true, final := true }]
    | .exn m =>
      if togCond404 m then
        [{ ok := false, status := some (.code 404), text := "Model \x27" ++ model ++ "\x27 not found" }]
      else if togCond401 m then
        [{ ok := false, status := some (.code 401),
            text := "Authentication failed - check your Together AI API key" }]
      else if a < retries ∧ togRetriable m then togStreamLoop model env retries rest
      else [{ ok := false, status := some .exception, text := m }]

/-- `TogetherAIClient.stream(model_id, prompt, ..., retries)`. -/
def togStream (model : String) (env : Nat → TogStreamAttempt) (retries : Nat) : List Chunk :=
  togStreamLoop model env retries (List.range' 1 retries)

/-! #### Fallback coordinator (`ClientManager.call_with_fallback`)

The primary (OpenRouter) call runs first; only if it failed and the
descriptor carries a truthy `together_fallback` id does the secondary
(Together AI) call run.  The embedding takes the two call results as
inputs. -/

/-- Python truthiness of the optional `together_fallback` field
(`None` and `""` are falsy). -/
def pyTruthyStr : Option String → Bool
  | none => false
  | some s => !(s == "")

/-- `ClientManager.call_with_fallback`, given the primary result, the
result the secondary call would produce, and `model_config.together_fallback`. -/
def call_with_fallback (primary secondary : Envelope) (together_fallback : Option String) :
    Envelope :=
  if !primary.ok && pyTruthyStr together_fallback then
    if secondary.ok then
      { secondary with
        fallback_used := some true
        fallback_model := together_fallback
        original_error := some primary.text }
    else
      { primary with
        fallback_attempted := some true
        fallback_error := some secondary.text }
  else primary

/-! ### Claim-side stream checkers

These two definitions state stream-sequence properties in the spec's
words (not translated from the source); they are evaluated on the
embedded streams. -/

/-- Only the last chunk of a sequence may be terminal (`final=true`):
this expresses both "at most one terminal chunk" and "it is always the
last element". -/
def finalsOnlyLast : List Chunk → Bool
  | [] => true
  | [_] => true
  | c :: rest => !c.final && finalsOnlyLast rest

/-- Once a failure (`ok=false`) chunk has appeared, no terminal chunk
may follow it. -/
def noFinalAfterFailure : List Chunk → Bool
  | [] => true
  | c :: rest =>
    (if c.ok then true else rest.all (fun d => !d.final)) && noFinalAfterFailure rest

/-- Concatenation of a list of texts, in order. -/
def concatTexts : List String → String
  | [] => ""
  | s :: r => s ++ concatTexts r

/-- Spec streaming invariant: for a stream that completes (its last chunk
is terminal), concatenating the texts of all non-terminal chunks in
emission order reconstructs the terminal chunk's text. -/
def streamConcatOK (cs : List Chunk) : Bool :=
  match cs.getLast? with
  | none => true
  | some t =>
    if t.final then
      decide (concatTexts ((cs.filter (fun c => c.final = false)).map Chunk.text) = t.text)
    else true

/-! ### Concrete environments used as counterexample inputs -/

/-- An OpenRouter streaming environment whose first attempt is rate
limited (HTTP 429) and whose second attempt succeeds with one delta. -/
def envRetriedRateLimitStream : Nat → ORStreamAttempt := fun a =>
  if a = 1 then .resp 429 [] else .resp 200 [SSEEvent.delta "hi"]

/-- An OpenRouter call environment whose first attempt is rate limited
(HTTP 429) and whose second attempt succeeds with content `"hi"`. -/
def envRetriedRateLimitCall : Nat → ORCallAttempt := fun a =>
  if a = 1 then .resp 429 "too many requests" (.message "" none)
  else .resp 200 "" (.message "hi" none)

/-- The temperature range the spec declares acceptable for a provider
(`temperature ∈ [0,2]`) — written from the spec's words, for comparison
with the embedded request builders. -/
def specTemperatureAccepted (t : ℚ) : Prop := 0 ≤ t ∧ t ≤ 2

/-! ## Theorems -/

/-! ### Judging engine -/

lemma voteOf_of_not_ok {o : JudgeOutcome} (h : isOkOutcome o = false) : voteOf o = "ERR" := by
  cases o with
  | ok d => simp [isOkOutcome] at h
  | fail r => rfl

lemma counts_cons (o : JudgeOutcome) (t : List JudgeOutcome) (v : String) :
    (votesOf (o :: t)).count v = (votesOf t).count v + (if voteOf o == v then 1 else 0) := by
  simp [votesOf, List.count_cons]

lemma validVotes_all_err (outs : List JudgeOutcome)
    (h : ∀ o ∈ outs, isOkOutcome o = false) : validVotes outs = 0 := by
  induction outs with
  | nil => rfl
  | cons o t ih =>
    have ho := voteOf_of_not_ok (h o (by simp))
    have ht := ih (fun x hx => h x (by simp [hx]))
    unfold validVotes countA countB countT at ht ⊢
    rw [counts_cons, counts_cons, counts_cons, ho]
    simp at ht ⊢
    omega

/-- C2: when every attempt errors (no `judge_once` succeeds), the
aggregate is reported failed — `ok = false` with a reason — and no
decision label is returned. -/
theorem judge_majority_all_err (outs : List JudgeOutcome)
    (h : ∀ o ∈ outs, isOkOutcome o = false) :
    (judge_majority outs).ok = false ∧
      (judge_majority outs).reason = some "All judgment attempts failed" ∧
      (judge_majority outs).decision = none := by
  have hv := validVotes_all_err outs h
  simp [judge_majority, hv]

/-- Witness for C2: two failed attempts (`votes = ["ERR","ERR"]`). -/
theorem judge_majority_all_err_witness :
    (judge_majority [.fail "e1", .fail "e2"]).ok = false ∧
      (judge_majority [.fail "e1", .fail "e2"]).reason = some "All judgment attempts failed" ∧
      (judge_majority [.fail "e1", .fail "e2"]).decision = none :=
  judge_majority_all_err [.fail "e1", .fail "e2"] (by decide)

lemma maxCount_eq_A {outs : List JudgeOutcome}
    (h1 : countB outs < countA outs) (h2 : countT outs < countA outs) :
    maxCount outs = countA outs := by
  unfold maxCount
  simp [Nat.max_def]
  split_ifs <;> omega

/-- C1: with at least one valid vote, if two or more of the A/B/TIE
tallies share the maximum the decision is TIE; a label strictly
exceeding both others is returned itself; and the votes
`["A","B","ERR"]` give counts `(A,B,TIE,ERR) = (1,1,0,1)` and decision
`"TIE"`. -/
theorem judge_majority_tie_rule (outs : List JudgeOutcome) (hv : 0 < validVotes outs) :
    (2 ≤ numAtMax outs → (judge_majority outs).decision = some "TIE")
    ∧ (countB outs < countA outs ∧ countT outs < countA outs →
        (judge_majority outs).decision = some "A")
    ∧ (countA outs < countB outs ∧ countT outs < countB outs →
        (judge_majority outs).decision = some "B")
    ∧ (countA outs < countT outs ∧ countB outs < countT outs →
        (judge_majority outs).decision = some "TIE")
    ∧ ((judge_majority [.ok "A", .ok "B", .fail "x"]).counts = some (1, 1, 0, 1)
        ∧ (judge_majority [.ok "A", .ok "B", .fail "x"]).decision = some "TIE") := by
  have hv' : ¬ validVotes outs = 0 := by omega
  refine ⟨?_, ?_, ?_, ?_, by decide⟩
  · intro ht
    simp [judge_majority, hv']
    intro hlt
    omega
  · rintro ⟨h1, h2⟩
    have hm := maxCount_eq_A h1 h2
    have hA : numAtMax outs = 1 := by
      unfold numAtMax
      rw [hm]
      have : ¬ countB outs = countA outs := by omega
      have : ¬ countT outs = countA outs := by omega
      simp_all
    simp [judge_majority, hv', hA, pyWinner, hm]
  · rintro ⟨h1, h2⟩
    have hm : maxCount outs = countB outs := by
      unfold maxCount; simp [Nat.max_def]; split_ifs <;> omega
    have hB : numAtMax outs = 1 := by
      unfold numAtMax
      rw [hm]
      have : ¬ countA outs = countB outs := by omega
      have : ¬ countT outs = countB outs := by omega
      simp_all
    have hpw : pyWinner outs = "B" := by
      unfold pyWinner
      rw [hm]
      have : ¬ countA outs = countB outs := by omega
      simp_all
    simp [judge_majority, hv', hB, hpw]
  · rintro ⟨h1, h2⟩
    have hm : maxCount outs = countT outs := by
      unfold maxCount; simp [Nat.max_def]; split_ifs <;> omega
    have hT : numAtMax outs = 1 := by
      unfold numAtMax
      rw [hm]
      have : ¬ countA outs = countT outs := by omega
      have : ¬ countB outs = countT outs := by omega
      simp_all
    have hpw : pyWinner outs = "TIE" := by
      unfold pyWinner
      rw [hm]
      have h3 : ¬ countA outs = countT outs := by omega
      have h4 : ¬ countB outs = countT outs := by omega
      simp [h3, h4]
    simp [judge_majority, hv', hT, hpw]

/-- Witness for C1 at the spec's example votes `["A","B","ERR"]`. -/
theorem judge_majority_tie_rule_witness :
    (judge_majority [.ok "A", .ok "B", .fail "x"]).decision = some "TIE" :=
  (judge_majority_tie_rule [.ok "A", .ok "B", .fail "x"] (by decide)).1 (by decide)

lemma counts_sum (outs : List JudgeOutcome)
    (h : ∀ o ∈ outs, isOkOutcome o = true →
      voteOf o = "A" ∨ voteOf o = "B" ∨ voteOf o = "TIE") :
    countA outs + countB outs + countT outs + countE outs = outs.length := by
  induction outs with
  | nil => rfl
  | cons o t ih =>
    have ht := ih (fun x hx hok => h x (by simp [hx]) hok)
    have hvo : voteOf o = "A" ∨ voteOf o = "B" ∨ voteOf o = "TIE" ∨ voteOf o = "ERR" := by
      by_cases hok : isOkOutcome o = true
      · rcases h o (by simp) hok with h' | h' | h' <;> simp [h']
      · exact Or.inr (Or.inr (Or.inr (voteOf_of_not_ok (by simpa using hok))))
    unfold countA countB countT countE at ht ⊢
    rw [counts_cons, counts_cons, counts_cons, counts_cons]
    rcases hvo with h' | h' | h' | h' <;> rw [h'] <;> simp <;> omega

/-- C10: for any run whose successful attempts carry decisions in
{A, B, TIE} (as `_extract_decision` guarantees), the votes list has one
vote per attempt in attempt order, the four tallies sum to the number of
attempts, `valid_votes = repeats - counts["ERR"]`, and a successful
aggregate decision is one of A/B/TIE. -/
theorem judge_majority_invariants (outs : List JudgeOutcome)
    (h : ∀ o ∈ outs, isOkOutcome o = true →
      voteOf o = "A" ∨ voteOf o = "B" ∨ voteOf o = "TIE") :
    (votesOf outs).length = outs.length
    ∧ (∀ i : Nat, (votesOf outs).get? i = (outs.get? i).map voteOf)
    ∧ countA outs + countB outs + countT outs + countE outs = outs.length
    ∧ validVotes outs = outs.length - countE outs
    ∧ ((judge_majority outs).ok = true →
        (judge_majority outs).decision = some "A" ∨ (judge_majority outs).decision = some "B"
          ∨ (judge_majority outs).decision = some "TIE") := by
  have hsum := counts_sum outs h
  refine ⟨by simp [votesOf], fun i => by simp [votesOf], hsum,
    by unfold validVotes at *; omega, ?_⟩
  intro hok
  by_cases hv : validVotes outs = 0
  · simp [judge_majority, hv] at hok
  · unfold judge_majority
    simp [hv]
    by_cases h1 : 1 < numAtMax outs
    · simp [h1]
    · simp [h1]
      unfold pyWinner
      split_ifs <;> simp

/-- Witness for C10 at a mixed three-attempt run. -/
theorem judge_majority_invariants_witness :
    (votesOf [JudgeOutcome.ok "A", .fail "e", .ok "TIE"]).length = 3
    ∧ countA [JudgeOutcome.ok "A", .fail "e", .ok "TIE"]
        + countB [JudgeOutcome.ok "A", .fail "e", .ok "TIE"]
        + countT [JudgeOutcome.ok "A", .fail "e", .ok "TIE"]
        + countE [JudgeOutcome.ok "A", .fail "e", .ok "TIE"] = 3 := by
  have h := judge_majority_invariants [JudgeOutcome.ok "A", .fail "e", .ok "TIE"] (by decide)
  exact ⟨h.1, h.2.2.1⟩

/-! ### Decision extractor -/

lemma extractD_of_step1 {text d : List Char}
    (h0 : text.isEmpty = false) (hs : step1 (cleanedL text) = some d) :
    extractD text = some ⟨d⟩ := by
  simp only [extractD, h0, Bool.false_eq_true, if_false]
  rw [hs]

/-- C7: whenever the last non-empty line of the cleaned input is exactly
`A`, `B` or `TIE`, `_extract_decision` returns it; the rule fires before
the TIE-substring check and the regex cascade, as the two closed
examples show (`"A\n" ↦ A` despite no regex context, and `"TIE\nB" ↦ B`
although `TIE` occurs as a substring). -/
theorem extract_decision_last_line (s : String) (l : List Char)
    (h1 : (linesOf s).getLast? = some l)
    (h2 : l = ['A'] ∨ l = ['B'] ∨ l = ['T', 'I', 'E']) :
    extract_decision s = some ⟨l⟩
    ∧ extract_decision "A\n" = some "A"
    ∧ extract_decision "TIE\nB" = some "B" := by
  refine ⟨?_, by decide, by decide⟩
  have h0 : s.data.isEmpty = false := by
    cases hval : s.data with
    | nil =>
      exfalso
      have hempty : linesOf s = [] := by unfold linesOf; rw [hval]; decide
      rw [hempty] at h1
      simp at h1
    | cons a t => simp [hval]
  show extractD s.data = some ⟨l⟩
  apply extractD_of_step1 h0
  unfold step1
  have hlines : linesOfL (cleanedL s.data) = linesOf s := rfl
  rw [hlines, h1]
  have htok : isTok l = true := by rcases h2 with rfl | rfl | rfl <;> rfl
  simp [htok]

/-- Witness for C7: a verbose response ending in a bare `TIE` line. -/
theorem extract_decision_last_line_witness :
    extract_decision "reasoning...\nTIE" = some "TIE" :=
  (extract_decision_last_line "reasoning...\nTIE" ['T', 'I', 'E'] (by decide)
    (Or.inr (Or.inr rfl))).1

/-! ### Streaming -/

lemma orStreamLoop_ne_nil (tmo : Nat) (env : Nat → ORStreamAttempt) (retries : Nat) :
    ∀ l, orStreamLoop tmo env retries l ≠ []
  | [] => by simp [orStreamLoop]
  | a :: rest => by
    unfold orStreamLoop
    cases env a with
    | resp s events =>
      dsimp only
      by_cases h429 : s = 429
      · rw [if_pos h429]
        by_cases hlt : a < retries <;> simp [hlt]
      · rw [if_neg h429]
        by_cases h200 : s ≠ 200
        · rw [if_pos h200]; simp
        · rw [if_neg h200]; simp
    | timeout =>
      dsimp only
      by_cases hlt : a < retries <;> simp [hlt]
    | netError m =>
      dsimp only
      by_cases hlt : a < retries <;> simp [hlt]

lemma sseChunks_nonfinal (es : List SSEEvent) : ∀ c ∈ sseChunks es, c.final = false := by
  induction es with
  | nil => simp [sseChunks]
  | cons e r ih =>
    intro c hc
    cases e with
    | delta t =>
      by_cases ht : t = ""
      · exact ih c (by simpa [sseChunks, ht] using hc)
      · rw [sseChunks, if_neg ht] at hc
        rcases List.mem_cons.mp hc with rfl | hmem
        · rfl
        · exact ih c hmem
    | malformed => exact ih c (by simpa [sseChunks] using hc)
    | done => simp [sseChunks] at hc

lemma finalsOnlyLast_cons_of_ne_nil (c : Chunk) (l : List Chunk) (h : l ≠ []) :
    finalsOnlyLast (c :: l) = (!c.final && finalsOnlyLast l) := by
  cases l with
  | nil => exact absurd rfl h
  | cons d t => rfl

lemma finalsOnlyLast_append_final (ds : List Chunk) (t : Chunk)
    (h : ∀ c ∈ ds, c.final = false) : finalsOnlyLast (ds ++ [t]) = true := by
  induction ds with
  | nil => rfl
  | cons d r ih =>
    have hd : d.final = false := h d (by simp)
    rw [List.cons_append, finalsOnlyLast_cons_of_ne_nil _ _ (by simp), hd]
    simpa using ih (fun c hc => h c (by simp [hc]))

lemma orStreamLoop_finalsOnlyLast (tmo : Nat) (env : Nat → ORStreamAttempt) (retries : Nat) :
    ∀ l, finalsOnlyLast (orStreamLoop tmo env retries l) = true := by
  intro l
  induction l with
  | nil => rfl
  | cons a rest ih =>
    unfold orStreamLoop
    cases env a with
    | resp s events =>
      dsimp only
      by_cases h429 : s = 429
      · rw [if_pos h429]
        by_cases hlt : a < retries
        · rw [if_pos hlt,
            finalsOnlyLast_cons_of_ne_nil _ _ (orStreamLoop_ne_nil tmo env retries rest)]
          simpa using ih
        · rw [if_neg hlt]; rfl
      · rw [if_neg h429]
        by_cases h200 : s ≠ 200
        · rw [if_pos h200]; rfl
        · rw [if_neg h200]
          exact finalsOnlyLast_append_final _ _ (sseChunks_nonfinal events)
    | timeout =>
      dsimp only
      by_cases hlt : a < retries
      · rw [if_pos hlt,
          finalsOnlyLast_cons_of_ne_nil _ _ (orStreamLoop_ne_nil tmo env retries rest)]
        simpa using ih
      · rw [if_neg hlt]; rfl
    | netError m =>
      dsimp only
      by_cases hlt : a < retries
      · rw [if_pos hlt,
          finalsOnlyLast_cons_of_ne_nil _ _ (orStreamLoop_ne_nil tmo env retries rest)]
        simpa using ih
      · rw [if_neg hlt]; rfl

lemma togStreamLoop_finalsOnlyLast (model : String) (env : Nat → TogStreamAttempt)
    (retries : Nat) : ∀ l, finalsOnlyLast (togStreamLoop model env retries l) = true := by
  intro l
  induction l with
  | nil => rfl
  | cons a rest ih =>
    unfold togStreamLoop
    cases env a with
    | ok deltas =>
      dsimp only
      apply finalsOnlyLast_append_final
      intro c hc
      simp only [List.mem_map] at hc
      obtain ⟨d, _, rfl⟩ := hc
      rfl
    | exn m =>
      dsimp only
      split_ifs <;> first | rfl | exact ih

/-- C5 (amended): both clients emit at most one terminal chunk per
stream and only as the last element, and a non-retried failure (an
OpenRouter non-200/non-429 response, a Together AI 404) yields exactly
one failure chunk ending the stream.  Retried failures break the
original claim: OpenRouter yields a failure chunk for a 429 / timeout /
network error and then continues, so later chunks — including the
terminal one — can follow a failure chunk. -/
theorem stream_terminal_discipline :
    (∀ (tmo : Nat) (env : Nat → ORStreamAttempt) (retries : Nat),
      finalsOnlyLast (orStream tmo env retries) = true)
    ∧ (∀ (model : String) (env : Nat → TogStreamAttempt) (retries : Nat),
        finalsOnlyLast (togStream model env retries) = true)
    ∧ (∀ (tmo : Nat) (env : Nat → ORStreamAttempt) (retries s : Nat) (events : List SSEEvent),
        0 < retries → env 1 = ORStreamAttempt.resp s events → s ≠ 200 → s ≠ 429 →
        orStream tmo env retries =
          [{ ok := false, status := some (.code s), text := "API error: " ++ toString s }])
    ∧ (∀ (model : String) (env : Nat → TogStreamAttempt) (retries : Nat) (m : String),
        0 < retries → env 1 = TogStreamAttempt.exn m → togCond404 m = true →
        togStream model env retries =
          [{ ok := false, status := some (.code 404),
              text := "Model \x27" ++ model ++ "\x27 not found" }]) := by
  refine ⟨fun tmo env retries => orStreamLoop_finalsOnlyLast tmo env retries _,
    fun model env retries => togStreamLoop_finalsOnlyLast model env retries _, ?_, ?_⟩
  · intro tmo env retries s events hr henv h200 h429
    obtain ⟨k, rfl⟩ : ∃ k, retries = k + 1 := ⟨retries - 1, by omega⟩
    unfold orStream
    rw [List.range'_succ]
    unfold orStreamLoop
    rw [henv]
    dsimp only
    rw [if_neg h429, if_pos h200]
  · intro model env retries m hr henv h404
    obtain ⟨k, rfl⟩ : ∃ k, retries = k + 1 := ⟨retries - 1, by omega⟩
    unfold togStream
    rw [List.range'_succ]
    unfold togStreamLoop
    rw [henv]
    dsimp only
    rw [if_pos h404]

/-- Witness for C5 at a concrete 500 response on the first attempt. -/
theorem stream_terminal_discipline_witness :
    orStream 60 (fun _ => ORStreamAttempt.resp 500 []) 2 =
      [{ ok := false, status := some (.code 500), text := "API error: " ++ toString 500 }] :=
  stream_terminal_discipline.2.2.1 60 (fun _ => ORStreamAttempt.resp 500 []) 2 500 []
    (by decide) rfl (by decide) (by decide)

/-- Counterexample for C5 as stated: a rate-limited first attempt yields
a failure chunk, the retry succeeds, and a terminal chunk follows the
failure chunk — also refuting "exactly one failure chunk and the
sequence ends" for the 4xx status 429. -/
theorem stream_failure_then_terminal_counterexample :
    noFinalAfterFailure (orStream 60 envRetriedRateLimitStream 2) = false
    ∧ (orStream 60 envRetriedRateLimitStream 2).head?.map Chunk.ok = some false
    ∧ (orStream 60 envRetriedRateLimitStream 2).getLast?.map Chunk.final = some true := by
  decide

lemma concatTexts_sseChunks (es : List SSEEvent) :
    concatTexts ((sseChunks es).map Chunk.text) = sseText es := by
  induction es with
  | nil => rfl
  | cons e r ih =>
    cases e with
    | delta t =>
      by_cases ht : t = ""
      · rw [sseChunks, sseText, if_pos ht, if_pos ht]; exact ih
      · rw [sseChunks, sseText, if_neg ht, if_neg ht, List.map_cons, concatTexts, ih]
    | malformed => rw [sseChunks, sseText]; exact ih
    | done => rfl

/-- C8 (amended): for an OpenRouter stream whose first attempt returns
HTTP 200 (so no failure chunks are emitted), the stream is the data
chunks followed by exactly one terminal chunk, the terminal chunk is
last, and concatenating the non-terminal chunk texts in emission order
reconstructs the terminal chunk's text. -/
theorem or_stream_reconstructs (tmo : Nat) (env : Nat → ORStreamAttempt) (retries : Nat)
    (events : List SSEEvent) (h1 : 0 < retries)
    (h2 : env 1 = ORStreamAttempt.resp 200 events) :
    orStream tmo env retries =
      sseChunks events ++ [{ ok := true, final := true, text := sseText events }]
    ∧ streamConcatOK (orStream tmo env retries) = true
    ∧ ((orStream tmo env retries).filter (fun c => c.final = true)).length = 1
    ∧ (orStream tmo env retries).getLast? =
        some { ok := true, final := true, text := sseText events } := by
  have heq : orStream tmo env retries =
      sseChunks events ++ [{ ok := true, final := true, text := sseText events }] := by
    obtain ⟨k, rfl⟩ : ∃ k, retries = k + 1 := ⟨retries - 1, by omega⟩
    unfold orStream
    rw [List.range'_succ]
    unfold orStreamLoop
    rw [h2]
    dsimp only
    rw [if_neg (by decide : ¬ (200 : Nat) = 429), if_neg (by decide : ¬ (200 : Nat) ≠ 200)]
  have hfilter : (sseChunks events).filter (fun c => c.final = false) = sseChunks events :=
    List.filter_eq_self.mpr (fun c hc => by simp [sseChunks_nonfinal events c hc])
  have hfilter2 : (sseChunks events).filter (fun c => c.final = true) = [] :=
    List.filter_eq_nil_iff.mpr (fun c hc => by simp [sseChunks_nonfinal events c hc])
  refine ⟨heq, ?_, ?_, ?_⟩
  · rw [heq]
    unfold streamConcatOK
    rw [List.getLast?_concat]
    dsimp only
    rw [List.filter_append, hfilter]
    have hsingle : List.filter (fun c => c.final = false)
        [{ ok := true, final := true, text := sseText events : Chunk }] = [] := by
      simp [List.filter_cons]
    rw [hsingle, List.append_nil]
    simp [concatTexts_sseChunks]
  · rw [heq, List.filter_append, hfilter2]
    simp
  · rw [heq, List.getLast?_concat]

/-- Witness for C8 at a concrete two-delta SSE stream. -/
theorem or_stream_reconstructs_witness :
    streamConcatOK (orStream 60 (fun _ =>
      ORStreamAttempt.resp 200
        [SSEEvent.delta "Hello ", SSEEvent.malformed, SSEEvent.delta "world", SSEEvent.done]) 1) =
      true :=
  (or_stream_reconstructs 60 _ 1
    [SSEEvent.delta "Hello ", SSEEvent.malformed, SSEEvent.delta "world", SSEEvent.done]
    (by decide) rfl).2.1

/-- Counterexample for C8 as stated: a stream that completes with a
terminal chunk after a retried 429 also contains the rate-limit failure
chunk, whose text breaks the concatenation equality. -/
theorem stream_concat_counterexample :
    streamConcatOK (orStream 60 envRetriedRateLimitStream 2) = false
    ∧ (orStream 60 envRetriedRateLimitStream 2).getLast?.map Chunk.final = some true := by
  decide

/-! ### Rate limiting and retries -/

lemma range'_one_getLast? : ∀ (n s : Nat), (List.range' s (n + 1)).getLast? = some (s + n)
  | 0, s => by simp [List.range'_succ]
  | n + 1, s => by
    rw [List.range'_succ, List.range'_succ, List.getLast?_cons_cons, ← List.range'_succ,
      range'_one_getLast? n (s + 1)]
    congr 1
    omega

lemma orCallLoop_all429 (tmo : Nat) (env : Nat → ORCallAttempt) (retries : Nat)
    (henv : ∀ a, ∃ b p, env a = ORCallAttempt.resp 429 b p) :
    ∀ l, l.getLast? = some retries →
      orCallLoop tmo env retries l =
        { ok := false, status := some (.code 429),
          text := "Rate limited - please wait and retry" } := by
  intro l
  induction l with
  | nil => intro h; simp at h
  | cons a rest ih =>
    intro hlast
    obtain ⟨b, p, hab⟩ := henv a
    unfold orCallLoop
    rw [hab]
    dsimp only
    rw [if_pos rfl]
    by_cases har : a = retries
    · rw [if_pos har]
    · rw [if_neg har]
      cases rest with
      | nil => simp at hlast; exact absurd hlast har
      | cons y t => exact ih (by rwa [List.getLast?_cons_cons] at hlast)

/-- C3 (amended): the OpenRouter client does not return a 429
immediately — it sleeps and retries, and the rate-limited failure
(status 429) is returned only when the final attempt is still rate
limited; a 429 on an earlier attempt consumes a retry and the call can
go on to succeed.  The Together AI client does return its rate-limit
failure immediately, on any attempt, without retrying. -/
theorem rate_limit_retry_behavior :
    (∀ (tmo : Nat) (env : Nat → ORCallAttempt) (retries : Nat), 0 < retries →
      (∀ a, ∃ b p, env a = ORCallAttempt.resp 429 b p) →
      orCall tmo env retries =
        { ok := false, status := some (.code 429),
          text := "Rate limited - please wait and retry" })
    ∧ (∀ (tmo : Nat) (env : Nat → ORCallAttempt) (retries : Nat) (bt bt2 : String)
        (p : ORPayload) (c : String), 2 ≤ retries →
        env 1 = ORCallAttempt.resp 429 bt p →
        env 2 = ORCallAttempt.resp 200 bt2 (ORPayload.message c none) →
        orCall tmo env retries = { ok := true, text := c })
    ∧ (∀ (model : String) (env : Nat → TogCallAttempt) (retries : Nat) (m : String),
        0 < retries → env 1 = TogCallAttempt.exn m →
        togCond404 m = false → togCond401 m = false → togCond429 m = true →
        togCall model env retries =
          { ok := false, status := some (.code 429), text := "Rate limited" }) := by
  refine ⟨?_, ?_, ?_⟩
  · intro tmo env retries hr henv
    obtain ⟨k, rfl⟩ : ∃ k, retries = k + 1 := ⟨retries - 1, by omega⟩
    exact orCallLoop_all429 tmo env (k + 1) henv _
      (by rw [range'_one_getLast? k 1]; congr 1; omega)
  · intro tmo env retries bt bt2 p c hr h1 h2
    obtain ⟨k, rfl⟩ : ∃ k, retries = k + 2 := ⟨retries - 2, by omega⟩
    unfold orCall
    rw [List.range'_succ, List.range'_succ]
    unfold orCallLoop
    rw [h1]
    dsimp only
    rw [if_pos rfl, if_neg (by omega : ¬ 1 = k + 2)]
    unfold orCallLoop
    rw [h2]
    dsimp only
    rw [if_neg (by decide : ¬ (200 : Nat) = 429),
      if_neg (by decide : ¬ ((200 : Nat) = 502 ∨ (200 : Nat) = 503)),
      if_neg (by decide : ¬ (200 : Nat) ≠ 200)]
    unfold orParse
    dsimp only
    by_cases hc : c = ""
    · subst hc; rfl
    · rw [if_neg hc]
  · intro model env retries m hr henv h404 h401 h429
    obtain ⟨k, rfl⟩ : ∃ k, retries = k + 1 := ⟨retries - 1, by omega⟩
    unfold togCall
    rw [List.range'_succ]
    unfold togCallLoop
    rw [henv]
    dsimp only
    rw [if_neg (by simp [h404]), if_neg (by simp [h401]), if_pos h429]

/-- Witness for C3 at an environment that is rate limited on every
attempt (`retries = 2`). -/
theorem rate_limit_retry_behavior_witness :
    orCall 60 (fun _ => ORCallAttempt.resp 429 "slow down" (.message "" none)) 2 =
      { ok := false, status := some (.code 429),
        text := "Rate limited - please wait and retry" } :=
  rate_limit_retry_behavior.1 60 _ 2 (by decide)
    (fun _ => ⟨"slow down", .message "" none, rfl⟩)

/-- Counterexample for C3 as stated: an OpenRouter call that receives an
HTTP 429 on its first attempt nevertheless retries and returns a
success, not a rate-limited failure. -/
theorem rate_limit_immediate_counterexample :
    (orCall 60 envRetriedRateLimitCall 2).ok = true
    ∧ (orCall 60 envRetriedRateLimitCall 2).status ≠ some (StatusTag.code 429)
    ∧ (orCall 60 envRetriedRateLimitCall 2).text = "hi" := by
  decide

/-! ### Parameter clamping -/

lemma clampLH_idem {α : Type} [LinearOrder α] (lo hi x : α) (h : lo ≤ hi) :
    max lo (min hi (max lo (min hi x))) = max lo (min hi x) := by
  have h1 : lo ≤ max lo (min hi x) := le_max_left _ _
  have h2 : max lo (min hi x) ≤ hi := max_le h (min_le_left _ _)
  rw [min_eq_right h2, max_eq_right h1]

lemma clampRH_idem {α : Type} [LinearOrder α] (lo hi x : α) (h : lo ≤ hi) :
    max lo (min (max lo (min x hi)) hi) = max lo (min x hi) := by
  have h1 : lo ≤ max lo (min x hi) := le_max_left _ _
  have h2 : max lo (min x hi) ≤ hi := max_le h (min_le_right _ _)
  rw [min_eq_left h2, max_eq_right h1]

/-- C9: every clamp in the OpenRouter request builder and in the
`AppConfig` validators is idempotent, and the clamped values lie in the
respective ranges: temperature in [0,1] (hence inside the provider
interval), top-p in (0,1], the configured timeout in [30,600]. -/
theorem clamp_idempotent_and_in_range :
    (∀ t : ℚ, orClampTemperature (orClampTemperature t) = orClampTemperature t
      ∧ 0 ≤ orClampTemperature t ∧ orClampTemperature t ≤ 1)
    ∧ (∀ p : ℚ, orClampTopP (orClampTopP p) = orClampTopP p
      ∧ 0 < orClampTopP p ∧ orClampTopP p ≤ 1)
    ∧ (∀ m : ℤ, orClampMaxTokens (orClampMaxTokens m) = orClampMaxTokens m
      ∧ 1 ≤ orClampMaxTokens m ∧ orClampMaxTokens m ≤ 2048)
    ∧ (∀ v : ℚ, validate_temperature (validate_temperature v) = validate_temperature v
      ∧ 0 ≤ validate_temperature v ∧ validate_temperature v ≤ 2)
    ∧ (∀ v : ℤ, validate_timeout (validate_timeout v) = validate_timeout v
      ∧ 30 ≤ validate_timeout v ∧ validate_timeout v ≤ 600) := by
  refine ⟨fun t => ⟨clampLH_idem 0 1 t (by norm_num), le_max_left _ _,
      max_le (by norm_num) (min_le_left _ _)⟩,
    fun p => ⟨clampLH_idem (1 / 10) 1 p (by norm_num),
      lt_of_lt_of_le (by norm_num) (le_max_left _ _),
      max_le (by norm_num) (min_le_left _ _)⟩,
    fun m => ⟨clampLH_idem 1 2048 m (by norm_num), le_max_left _ _,
      max_le (by norm_num) (min_le_left _ _)⟩,
    fun v => ⟨clampRH_idem 0 2 v (by norm_num), le_max_left _ _,
      max_le (by norm_num) (min_le_right _ _)⟩,
    fun v => ⟨clampRH_idem 30 600 v (by norm_num), le_max_left _ _,
      max_le (by norm_num) (min_le_right _ _)⟩⟩

/-- Counterexample for C4 as stated: the Together AI client forwards a
caller-supplied temperature of 5 unchanged, outside the provider range
the spec declares. -/
theorem together_no_clamp_counterexample :
    (togetherRequestArgs "m" "p" 256 5 1).temperature = 5
    ∧ ¬ specTemperatureAccepted (togetherRequestArgs "m" "p" 256 5 1).temperature := by
  constructor
  · rfl
  · intro h
    exact absurd h.2 (by norm_num [togetherRequestArgs])

/-- C4 (amended): only the OpenRouter client clamps its sampling
parameters before use (temperature to [0,1], top-p to [0.1,1],
max_tokens to [1,2048]); the Together AI client forwards the
caller-supplied max_tokens, temperature and top-p to the SDK unclamped,
so an out-of-range value can reach that endpoint. -/
theorem request_body_clamping :
    (∀ (m pr : String) (mt : ℤ) (t p : ℚ) (st : Bool),
      0 ≤ (_create_request_body m pr mt t p st).temperature
      ∧ (_create_request_body m pr mt t p st).temperature ≤ 1
      ∧ 0 < (_create_request_body m pr mt t p st).top_p
      ∧ (_create_request_body m pr mt t p st).top_p ≤ 1
      ∧ 1 ≤ (_create_request_body m pr mt t p st).max_tokens
      ∧ (_create_request_body m pr mt t p st).max_tokens ≤ 2048)
    ∧ (∀ (m pr : String) (mt : ℤ) (t p : ℚ),
        (togetherRequestArgs m pr mt t p).max_tokens = mt
        ∧ (togetherRequestArgs m pr mt t p).temperature = t
        ∧ (togetherRequestArgs m pr mt t p).top_p = p) := by
  constructor
  · intro m pr mt t p st
    refine ⟨le_max_left _ _, max_le (by norm_num) (min_le_left _ _),
      lt_of_lt_of_le (by norm_num) (le_max_left _ _),
      max_le (by norm_num) (min_le_left _ _),
      le_max_left _ _, max_le (by norm_num) (min_le_left _ _)⟩
  · intro m pr mt t p
    exact ⟨rfl, rfl, rfl⟩

/-! ### Fallback coordinator -/

/-- C6: when the primary fails, the descriptor declares a (truthy)
secondary id, and the secondary succeeds, the returned envelope is the
secondary result tagged `fallback_used = true` with `fallback_model` the
secondary id and `original_error` the primary failure text; with no
secondary configured the primary result is returned unchanged; and
`fallback_used = true` on the output implies both provenance fields are
set. -/
theorem call_with_fallback_provenance (p s : Envelope) (fb : String)
    (h1 : p.ok = false) (h2 : fb ≠ "") (h3 : s.ok = true) :
    ((call_with_fallback p s (some fb)).fallback_used = some true
      ∧ (call_with_fallback p s (some fb)).fallback_model = some fb
      ∧ (call_with_fallback p s (some fb)).original_error = some p.text
      ∧ (call_with_fallback p s (some fb)).ok = true
      ∧ (call_with_fallback p s (some fb)).text = s.text)
    ∧ (∀ q t : Envelope, call_with_fallback q t none = q)
    ∧ (∀ (q t : Envelope) (ofb : Option String), q.fallback_used = none →
        (call_with_fallback q t ofb).fallback_used = some true →
        (call_with_fallback q t ofb).fallback_model.isSome
          ∧ (call_with_fallback q t ofb).original_error = some q.text) := by
  refine ⟨?_, ?_, ?_⟩
  · have hcond : (!p.ok && pyTruthyStr (some fb)) = true := by
      simp [h1, pyTruthyStr, h2]
    unfold call_with_fallback
    rw [hcond, if_pos rfl, if_pos h3]
    exact ⟨rfl, rfl, rfl, h3, rfl⟩
  · intro q t
    unfold call_with_fallback
    simp [pyTruthyStr]
  · intro q t ofb hq hused
    unfold call_with_fallback at hused ⊢
    by_cases hcond : (!q.ok && pyTruthyStr ofb) = true
    · rw [hcond, if_pos rfl] at hused ⊢
      by_cases hok : t.ok = true
      · rw [if_pos hok] at hused ⊢
        constructor
        · cases ofb with
          | none => simp [pyTruthyStr] at hcond
          | some x => rfl
        · rfl
      · rw [if_neg hok] at hused
        exact absurd hused (by simp [hq])
    · rw [Bool.not_eq_true] at hcond
      rw [hcond] at hused
      simp at hused
      exact absurd hused (by simp [hq])

/-- Witness for C6 at a failed primary with a configured secondary. -/
theorem call_with_fallback_provenance_witness :
    (call_with_fallback { ok := false, text := "primary down" } { ok := true, text := "sec" }
        (some "together/model")).fallback_used = some true
    ∧ (call_with_fallback { ok := false, text := "primary down" } { ok := true, text := "sec" }
        (some "together/model")).fallback_model = some "together/model" :=
  ⟨(call_with_fallback_provenance { ok := false, text := "primary down" }
      { ok := true, text := "sec" } "together/model" rfl (by decide) rfl).1.1,
    (call_with_fallback_provenance { ok := false, text := "primary down" }
      { ok := true, text := "sec" } "together/model" rfl (by decide) rfl).1.2.1⟩
